import Mathlib

/-!
Start-up configuration and bootstrap orchestration of trireme-kubernetes.

A shallow embedding of `config/config.go` (`LoadConfig`) and of `main.go`
(`main`), followed by theorems about the configuration precedence rules and
about the order of the actions `main` performs.

Go strings are byte sequences, so they are embedded as lists of bytes:
`len` is `List.length`, `s[:k]` is `List.take k`, `+` is `++` and `""` is `[]`.
-/

/-- A Go `string`: an immutable sequence of bytes. -/
abbrev GoString := List UInt8

deriving instance DecidableEq for Except

namespace Config

/-- The constant `EnvNodeName = "KUBERNETES_NODE"`. -/
def EnvNodeName : GoString := "KUBERNETES_NODE".toUTF8.data.toList

/-- The constant `EnvNodeAnnotationKey = "TRIREME_CERT"`. -/
def EnvNodeAnnotationKey : GoString := "TRIREME_CERT".toUTF8.data.toList

/-- The constant `DefaultNodeAnnotationKey = "TRIREME"`. -/
def DefaultNodeAnnotationKey : GoString := "TRIREME".toUTF8.data.toList

/-- The constant `EnvPKIDirectory = "TRIREME_PKI"`. -/
def EnvPKIDirectory : GoString := "TRIREME_PKI".toUTF8.data.toList

/-- The constant `DefaultPKIDirectory = "/var/trireme/"`. -/
def DefaultPKIDirectory : GoString := "/var/trireme/".toUTF8.data.toList

/-- The constant `DefaultTriremePSK = "Trireme"`. -/
def DefaultTriremePSK : GoString := "Trireme".toUTF8.data.toList

/-- The constant `KubeConfigLocation = "/.kube/config"`. -/
def KubeConfigLocation : GoString := "/.kube/config".toUTF8.data.toList

/-- The name `"KUBERNETES_PORT"` read by `LoadConfig` to detect an in-cluster run. -/
def EnvKubernetesPort : GoString := "KUBERNETES_PORT".toUTF8.data.toList

/-- The name `"HOME"` read by `LoadConfig` for the default kubeconfig location. -/
def EnvHome : GoString := "HOME".toUTF8.data.toList

/-- The struct `TriKubeConfig`; a freshly allocated `&TriKubeConfig{}` has every
field at its zero value. -/
structure TriKubeConfig where
  KubeEnv : Bool := false
  KubeNodeName : GoString := []
  NodeAnnotationKey : GoString := []
  PKIDirectory : GoString := []
  KubeConfigLocation : GoString := []
  TriremePSK : GoString := []
deriving DecidableEq, Repr

/-- The four command-line flags `LoadConfig` declares, as `flag.Parse` leaves
them: the value given on the command line, or the declared default `""`. -/
structure Flags where
  node : GoString := []
  annotation : GoString := []
  pki : GoString := []
  kubeconfig : GoString := []
deriving DecidableEq, Repr

/-- The process environment as `os.Getenv` sees it: an unset variable reads `""`. -/
abbrev Getenv := GoString → GoString

/-- The function `LoadConfig`, statement by statement after `flag.Parse()` has
returned. `panic("Couldn't load NodeName")` is `Except.error`. -/
def LoadConfig (flags : Flags) (getenv : Getenv) : Except String TriKubeConfig :=
  let config : TriKubeConfig := {}
  let config : TriKubeConfig :=
    if getenv EnvKubernetesPort = [] then
      let config : TriKubeConfig := { config with KubeEnv := false }
      let config : TriKubeConfig := { config with KubeConfigLocation := flags.kubeconfig }
      if config.KubeConfigLocation = [] then
        { config with KubeConfigLocation := getenv EnvHome ++ KubeConfigLocation }
      else config
    else
      { config with KubeEnv := true }
  let config : TriKubeConfig := { config with KubeNodeName := flags.node }
  let config : TriKubeConfig :=
    if config.KubeNodeName = [] then { config with KubeNodeName := getenv EnvNodeName }
    else config
  if config.KubeNodeName = [] then
    Except.error "Couldn't load NodeName"
  else
    let config : TriKubeConfig := { config with NodeAnnotationKey := flags.annotation }
    let config : TriKubeConfig :=
      if config.NodeAnnotationKey = [] then
        { config with NodeAnnotationKey := getenv EnvNodeAnnotationKey }
      else config
    let config : TriKubeConfig :=
      if config.NodeAnnotationKey = [] then
        { config with NodeAnnotationKey := DefaultNodeAnnotationKey }
      else config
    let config : TriKubeConfig := { config with PKIDirectory := flags.pki }
    let config : TriKubeConfig :=
      if config.PKIDirectory = [] then { config with PKIDirectory := getenv EnvPKIDirectory }
      else config
    let config : TriKubeConfig :=
      if config.PKIDirectory = [] then { config with PKIDirectory := DefaultPKIDirectory }
      else config
    let config : TriKubeConfig := { config with TriremePSK := DefaultTriremePSK }
    Except.ok config

/-- The documented precedence rule, in the words of the doc comment of
`LoadConfig`: the first candidate that is present (non-empty) is used; when
none is, the result is empty. -/
def firstNonEmpty : List GoString → GoString
  | [] => []
  | c :: cs => if c = [] then firstNonEmpty cs else c

/-- An environment given by a finite list of bindings, first binding wins. -/
def envOf (bindings : List (GoString × GoString)) : Getenv :=
  fun name => ((bindings.find? (fun b => b.1 == name)).map (fun b => b.2)).getD []

end Config

namespace Main

/-- The string `"PSK"` that `main` compares `config.AuthType` with. -/
def AuthPSK : GoString := "PSK".toUTF8.data.toList

/-- The string `"PKI"` that `main` compares `config.AuthType` with. -/
def AuthPKI : GoString := "PKI".toUTF8.data.toList

/-- A non-nil collaborator value, tagged with the `configurator` constructor
that returned it; the constructors are taken to return non-nil values. A
variable of interface type holding `nil` is `none`. -/
inductive Bundle
  | PSK
  | PKI
deriving DecidableEq, Repr

/-- The calls of `main` that reach outside it, with the arguments `main` passes.
`glog.V(2).Infof` lines are left out: they do not touch control flow.
Arguments that `main` hands through unchanged and never inspects
(`config.TriremeNets`, `config.ExistingContainerSync`, the Kubernetes client,
the PEM blocks) are left out as well. -/
inductive Action
  /-- The call `resolver.NewKubernetesPolicy(config.KubeConfigLocation, config.KubeNodeName)` -/
  | NewKubernetesPolicy (kubeConfigLocation nodeName : GoString)
  /-- The call `fmt.Printf("Error initializing KubernetesPolicy, exiting: %s \n", err)` -/
  | PrintfPolicyError
  /-- The call `configurator.NewPSKTriremeWithDockerMonitor(config.KubeNodeName, ..., []byte(config.TriremePSK))` -/
  | NewPSKTriremeWithDockerMonitor (nodeName psk : GoString)
  /-- The call `auth.LoadPKI(config.PKIDirectory)` -/
  | LoadPKI (pkiDirectory : GoString)
  /-- The call `fmt.Printf("Error loading Certificates for PKI Trireme, exiting: %s \n", err)` -/
  | PrintfPKIError
  /-- The call `configurator.NewPKITriremeWithDockerMonitor(config.KubeNodeName, ...)` -/
  | NewPKITriremeWithDockerMonitor (nodeName : GoString)
  /-- The call `auth.NewCertsWatcher(client, publicKeyAdder, config.NodeAnnotationKey)` -/
  | NewCertsWatcher (publicKeyAdder : Option Bundle) (nodeAnnotationKey : GoString)
  /-- The call `certs.AddCertToNodeAnnotation(client, pki.CertPEM)`; `rejected` records
  whether the write of the certificate was refused by the cluster. -/
  | AddCertToNodeAnnotation (rejected : Bool)
  /-- The call `certs.SyncNodeCerts(client)` -/
  | SyncNodeCerts
  /-- The statement `go certs.StartWatchingCerts()` -/
  | GoStartWatchingCerts
  /-- The call `kubernetesPolicy.SetPolicyUpdater(trireme)` -/
  | SetPolicyUpdater (trireme : Option Bundle)
  /-- The call `kubernetesPolicy.SetExcluder(excluder)` -/
  | SetExcluder (excluder : Option Bundle)
  /-- The call `exclusion.NewWatcher(config.TriremeNets, client, excluder)` -/
  | NewWatcher (excluder : Option Bundle)
  /-- The call `log.Fatalf("Error creating the exclusion Watcher: %s", err)` -/
  | LogFatalf
  /-- The statement `go exclusionWatcher.Start()` -/
  | GoExclusionWatcherStart
  /-- The call `trireme.Start()`, with the value of the receiver `trireme` -/
  | TriremeStart (receiver : Option Bundle)
  /-- The call `monitor.Start()`, with the value of the receiver `monitor` -/
  | MonitorStart (receiver : Option Bundle)
  /-- The call `kubernetesPolicy.Run()` -/
  | KubernetesPolicyRun
  /-- The call `signal.Notify(c, os.Interrupt)` -/
  | SignalNotify
  /-- The receive `<-c`: the receive on the signal channel returned -/
  | InterruptReceived
  /-- The call `fmt.Println("Bye Kubernetes!")` -/
  | PrintlnBye
  /-- The call `kubernetesPolicy.Stop()` -/
  | KubernetesPolicyStop
  /-- The call `monitor.Stop()`, with the value of the receiver `monitor` -/
  | MonitorStop (receiver : Option Bundle)
  /-- The call `trireme.Stop()`, with the value of the receiver `trireme` -/
  | TriremeStop (receiver : Option Bundle)
deriving DecidableEq, Repr

/-- One entry of the record of a run: the action, and the value the field
`config.KubeNodeName` held when the action was performed. -/
structure Event where
  nodeName : GoString
  act : Action
deriving DecidableEq, Repr

/-- How a run of `main` ends. -/
inductive Outcome
  /-- The function `main` returned (a `return` statement, or the end of the body) -/
  | returned
  /-- The process left through `os.Exit(status)`; `log.Fatalf` exits with 1 -/
  | exited (status : Nat)
  /-- A run-time panic -/
  | panicked
  /-- The function `main` is parked on `<-c` and no interrupt is ever delivered -/
  | blocked
deriving DecidableEq, Repr

/-- The record of a run of `main`. -/
structure Run where
  trace : List Event
  outcome : Outcome
deriving DecidableEq, Repr

/-- What the outside world answers to the calls of `main`. Every call is taken
to return; the fields say with what. -/
structure World where
  /-- The call `resolver.NewKubernetesPolicy` returns `err != nil` -/
  newKubernetesPolicyErr : Bool
  /-- The call `auth.LoadPKI` returns `err != nil` -/
  loadPKIErr : Bool
  /-- Modelled from the spec: `publishLocalCertificate` has the result type
  `Result<void, PublishError>`; the package `auth` that implements it as
  `AddCertToNodeAnnotation` is not among the sources. The field says whether
  the write of the local certificate is rejected. -/
  addCertRejected : Bool
  /-- The call `exclusion.NewWatcher` returns `err != nil` -/
  newWatcherErr : Bool
  /-- An `os.Interrupt` is eventually delivered to the process -/
  interrupt : Bool
deriving DecidableEq, Repr

/-- The local variables of `main` that change while it runs, and the record of
the actions performed so far. -/
structure Locals where
  config : Config.TriKubeConfig
  trireme : Option Bundle := none
  monitor : Option Bundle := none
  excluder : Option Bundle := none
  publicKeyAdder : Option Bundle := none
  trace : List Event := []

/-- Perform an action: append it to the record. -/
def emit (l : Locals) (a : Action) : Locals :=
  { l with trace := l.trace ++ [{ nodeName := l.config.KubeNodeName, act := a }] }

/-- Leave `main` with the given outcome. -/
def halt (l : Locals) (o : Outcome) : Run :=
  { trace := l.trace, outcome := o }

/-- Lines 41-44 of `main.go`: the node name is cut to `tokens.MaxServerName`
bytes when it is longer. -/
def truncateNodeName (maxServerName : Nat) (l : Locals) : Locals :=
  if l.config.KubeNodeName.length > maxServerName then
    { l with config :=
        { l.config with KubeNodeName := l.config.KubeNodeName.take maxServerName } }
  else l

/-- Lines 47-50: the body of `if config.AuthType == "PSK"`. -/
def pskBlock (l : Locals) : Locals :=
  let l := emit l (.NewPSKTriremeWithDockerMonitor l.config.KubeNodeName l.config.TriremePSK)
  { l with trireme := some .PSK, monitor := some .PSK, excluder := some .PSK }

/-- Lines 53-72: the body of `if config.AuthType == "PKI"`; `rest` is what
`main` goes on with when the block falls through. -/
def pkiBlock (w : World) (l : Locals) (rest : Locals → Run) : Run :=
  let l := emit l (.LoadPKI l.config.PKIDirectory)
  if w.loadPKIErr then
    halt (emit l .PrintfPKIError) .returned
  else
    let l := emit l (.NewPKITriremeWithDockerMonitor l.config.KubeNodeName)
    let l : Locals :=
      { l with trireme := some .PKI, monitor := some .PKI, excluder := some .PKI,
               publicKeyAdder := some .PKI }
    let l := emit l (.NewCertsWatcher l.publicKeyAdder l.config.NodeAnnotationKey)
    let l := emit l ( Action.AddCertToNodeAnnotation w.addCertRejected)
    let l := emit l .SyncNodeCerts
    let l := emit l .GoStartWatchingCerts
    rest l

/-- Lines 91-99: wait for the interrupt, then stop the components. A method
call on a nil interface value panics. -/
def awaitAndStop (w : World) (l : Locals) : Run :=
  let l := emit l .SignalNotify
  if w.interrupt then
    let l := emit l .InterruptReceived
    let l := emit l .PrintlnBye
    let l := emit l .KubernetesPolicyStop
    let l := emit l (.MonitorStop l.monitor)
    if l.monitor = none then halt l .panicked else
    let l := emit l (.TriremeStop l.trireme)
    if l.trireme = none then halt l .panicked else
    halt l .returned
  else
    halt l .blocked

/-- Lines 74-89: registration, the exclusion watcher, and the start of the
components. A method call on a nil interface value panics. -/
def wireAndStart (w : World) (l : Locals) : Run :=
  let l := emit l (.SetPolicyUpdater l.trireme)
  let l := emit l (.SetExcluder l.excluder)
  let l := emit l (.NewWatcher l.excluder)
  if w.newWatcherErr then
    halt (emit l .LogFatalf) (.exited 1)
  else
    let l := emit l .GoExclusionWatcherStart
    let l := emit l (.TriremeStart l.trireme)
    if l.trireme = none then halt l .panicked else
    let l := emit l (.MonitorStart l.monitor)
    if l.monitor = none then halt l .panicked else
    let l := emit l .KubernetesPolicyRun
    awaitAndStop w l

/-- The body of `main` from line 27 on, for the configuration `LoadConfig`
returned. `maxServerName` is the constant `tokens.MaxServerName` and
`authType` the field `config.AuthType`; `main` reads both, and neither is
declared in the sources at hand. -/
def mainWithConfig (maxServerName : Nat) (authType : GoString) (w : World)
    (config : Config.TriKubeConfig) : Run :=
  let l : Locals := { config := config }
  let l := emit l (.NewKubernetesPolicy l.config.KubeConfigLocation l.config.KubeNodeName)
  if w.newKubernetesPolicyErr then
    halt (emit l .PrintfPolicyError) .returned
  else
    let l := truncateNodeName maxServerName l
    let l := if authType = AuthPSK then pskBlock l else l
    if authType = AuthPKI then pkiBlock w l (wireAndStart w) else wireAndStart w l

/-- The function `main`: load the configuration (a panic of `LoadConfig` ends
the run before any action), then run the body. -/
def main (maxServerName : Nat) (authType : GoString) (flags : Config.Flags)
    (getenv : Config.Getenv) (w : World) : Run :=
  match Config.LoadConfig flags getenv with
  | .error _ => { trace := [], outcome := .panicked }
  | .ok config => mainWithConfig maxServerName authType w config

/-- The actions of a run, in order. -/
def Run.acts (r : Run) : List Action := r.trace.map Event.act

/-! ## Vocabulary for statements about runs -/

/-- The two enforcement constructors of `configurator`. -/
def Action.isEnforcementConstructor : Action → Bool
  | .NewPSKTriremeWithDockerMonitor _ _ => true
  | .NewPKITriremeWithDockerMonitor _ => true
  | _ => false

/-- The construction of the policy engine, and the message printed when it fails:
the only actions `main` performs before the node name is cut. -/
def Action.isPolicyEngineConstruction : Action → Bool
  | .NewKubernetesPolicy _ _ => true
  | .PrintfPolicyError => true
  | _ => false

/-- The publish of the local certificate. -/
def Action.isPublish : Action → Bool
  | Action.AddCertToNodeAnnotation _ => true
  | _ => false

/-- The one-time sync of the peer certificates. -/
def Action.isSync : Action → Bool
  | .SyncNodeCerts => true
  | _ => false

/-- The launch of the certificate watch loop. -/
def Action.isCertWatchLaunch : Action → Bool
  | .GoStartWatchingCerts => true
  | _ => false

/-- The construction of the certificate watcher, which is handed the public-key adder. -/
def Action.isNewCertsWatcher : Action → Bool
  | .NewCertsWatcher _ _ => true
  | _ => false

/-- The actions of the Trust Synchronizer: construction, publish, sync, watch launch. -/
def Action.isTrustSynchronizer (a : Action) : Bool :=
  a.isNewCertsWatcher || a.isPublish || a.isSync || a.isCertWatchLaunch

/-- The registrations on the policy engine. -/
def Action.isRegistration : Action → Bool
  | .SetPolicyUpdater _ => true
  | .SetExcluder _ => true
  | _ => false

/-- The construction of the exclusion watcher. -/
def Action.isNewWatcher : Action → Bool
  | .NewWatcher _ => true
  | _ => false

/-- The launch of the exclusion watch loop. -/
def Action.isExclusionWatchLaunch : Action → Bool
  | .GoExclusionWatcherStart => true
  | _ => false

/-- The start of the enforcement engine. -/
def Action.isTriremeStart : Action → Bool
  | .TriremeStart _ => true
  | _ => false

/-- A `Start` or `Run` call on one of the three components. -/
def Action.isStartOrRun : Action → Bool
  | .TriremeStart _ => true
  | .MonitorStart _ => true
  | .KubernetesPolicyRun => true
  | _ => false

/-- A `go` statement: the launch of a background task. -/
def Action.isGoroutineLaunch (a : Action) : Bool :=
  a.isCertWatchLaunch || a.isExclusionWatchLaunch

/-- The three components `main` starts and stops. -/
inductive Component
  | enforcementEngine
  | monitor
  | policyResolver
deriving DecidableEq, Repr

/-- The component a call starts, if it starts one: a call on a nil receiver starts nothing. -/
def Action.starts : Action → Option Component
  | .TriremeStart (some _) => some .enforcementEngine
  | .MonitorStart (some _) => some .monitor
  | .KubernetesPolicyRun => some .policyResolver
  | _ => none

/-- The component a call stops, if it stops one. -/
def Action.stops : Action → Option Component
  | .TriremeStop (some _) => some .enforcementEngine
  | .MonitorStop (some _) => some .monitor
  | .KubernetesPolicyStop => some .policyResolver
  | _ => none

/-- The components started in a run, in the order of their start. -/
def Run.startOrder (r : Run) : List Component := r.acts.filterMap Action.starts

/-- The actions performed after the interrupt was received. -/
def Run.afterInterrupt (r : Run) : List Action :=
  (r.acts.dropWhile (fun a => a != Action.InterruptReceived)).drop 1

/-- The components stopped after the interrupt, in the order of their stop. -/
def Run.stopOrder (r : Run) : List Component := r.afterInterrupt.filterMap Action.stops

/-- The run reaches the wait on the signal channel. -/
def Run.reachesInterruptWait (r : Run) : Prop := Action.SignalNotify ∈ r.acts

instance (r : Run) : Decidable r.reachesInterruptWait := by
  unfold Run.reachesInterruptWait
  infer_instance

/-- An action of the given kind occurs exactly once. -/
def occursOnce (p : Action → Bool) (acts : List Action) : Prop := acts.countP p = 1

instance (p : Action → Bool) (acts : List Action) : Decidable (occursOnce p acts) := by
  unfold occursOnce
  infer_instance

/-- The single action of kind `p` comes strictly before the single action of kind `q`. -/
def strictlyBefore (p q : Action → Bool) (acts : List Action) : Prop :=
  occursOnce p acts ∧ occursOnce q acts ∧ acts.findIdx p < acts.findIdx q

instance (p q : Action → Bool) (acts : List Action) : Decidable (strictlyBefore p q acts) := by
  unfold strictlyBefore
  infer_instance

/-- The outcome of the publish is not looked at: forget it in the record. -/
def Action.forgetPublishResult : Action → Action
  | Action.AddCertToNodeAnnotation _ => Action.AddCertToNodeAnnotation false
  | a => a

/-- All constructions of a run succeed: the policy engine, the PKI material when
the mode is PKI, and the exclusion watcher. -/
def allConstructionsSucceed (authType : GoString) (w : World) : Prop :=
  w.newKubernetesPolicyErr = false ∧ (authType = AuthPKI → w.loadPKIErr = false) ∧
    w.newWatcherErr = false

instance (authType : GoString) (w : World) : Decidable (allConstructionsSucceed authType w) := by
  unfold allConstructionsSucceed
  infer_instance

/-- The node name after lines 41-44: the first `maxServerName` bytes when it is
longer than that, the name itself otherwise. -/
def nameInForce (maxServerName : Nat) (config : Config.TriKubeConfig) : GoString :=
  (truncateNodeName maxServerName { config := config }).config.KubeNodeName


/-! ## Sample inputs -/

/-- The flags `-node=ABCD`. -/
def sampleFlags : Config.Flags := { node := [65, 66, 67, 68] }

/-- The empty process environment. -/
def sampleEnv : Config.Getenv := Config.envOf []

/-- The configuration `LoadConfig` returns for `sampleFlags` in `sampleEnv`. -/
def sampleConfig : Config.TriKubeConfig :=
  { KubeEnv := false
    KubeNodeName := [65, 66, 67, 68]
    NodeAnnotationKey := Config.DefaultNodeAnnotationKey
    PKIDirectory := Config.DefaultPKIDirectory
    KubeConfigLocation := Config.KubeConfigLocation
    TriremePSK := Config.DefaultTriremePSK }

/-- A world in which every call succeeds and the interrupt arrives. -/
def calmWorld : World :=
  { newKubernetesPolicyErr := false, loadPKIErr := false, addCertRejected := false,
    newWatcherErr := false, interrupt := true }

/-- A world in which only the construction of the exclusion watcher fails. -/
def exclusionLoadFails : World := { calmWorld with newWatcherErr := true }

/-- A world in which only the write of the local certificate is rejected. -/
def publishRejected : World := { calmWorld with addCertRejected := true }

/-- A world in which only the construction of the policy engine fails. -/
def policyEngineFails : World := { calmWorld with newKubernetesPolicyErr := true }

end Main

/-! ## Configuration loading -/

section ConfigTheorems
open Config

/-- Two candidates: the second is used exactly when the first is empty. -/
theorem firstNonEmpty_pair (a b : GoString) :
    firstNonEmpty [a, b] = if a = [] then b else a := by
  by_cases ha : a = [] <;> by_cases hb : b = [] <;> simp [firstNonEmpty, ha, hb]

/-- Three candidates, the last of which is a non-empty default. -/
theorem firstNonEmpty_triple (a b d : GoString) :
    firstNonEmpty [a, b, d] = if a = [] then (if b = [] then d else b) else a := by
  by_cases ha : a = [] <;> by_cases hb : b = [] <;> by_cases hd : d = [] <;>
    simp [firstNonEmpty, ha, hb, hd]

/-- `LoadConfig` panics exactly when neither the flag nor the environment names the node. -/
theorem LoadConfig_error_iff (flags : Flags) (getenv : Getenv) :
    (∃ msg, LoadConfig flags getenv = Except.error msg) ↔
      (flags.node = [] ∧ getenv EnvNodeName = []) := by
  by_cases h1 : flags.node = [] <;> by_cases h2 : getenv EnvNodeName = [] <;>
    simp [LoadConfig, h1, h2]

/-- What `LoadConfig` returns when the node name resolves. -/
theorem LoadConfig_ok (flags : Flags) (getenv : Getenv)
    (h : ¬ (flags.node = [] ∧ getenv EnvNodeName = [])) :
    LoadConfig flags getenv = Except.ok
      { KubeEnv := decide (getenv EnvKubernetesPort ≠ [])
        KubeNodeName := if flags.node = [] then getenv EnvNodeName else flags.node
        NodeAnnotationKey :=
          if flags.annotation = [] then
            (if getenv EnvNodeAnnotationKey = [] then DefaultNodeAnnotationKey
             else getenv EnvNodeAnnotationKey)
          else flags.annotation
        PKIDirectory :=
          if flags.pki = [] then
            (if getenv EnvPKIDirectory = [] then DefaultPKIDirectory else getenv EnvPKIDirectory)
          else flags.pki
        KubeConfigLocation :=
          if getenv EnvKubernetesPort = [] then
            (if flags.kubeconfig = [] then getenv EnvHome ++ KubeConfigLocation
             else flags.kubeconfig)
          else []
        TriremePSK := DefaultTriremePSK } := by
  by_cases h1 : flags.node = [] <;> by_cases h2 : getenv EnvNodeName = [] <;>
    by_cases h3 : flags.annotation = [] <;> by_cases h4 : getenv EnvNodeAnnotationKey = [] <;>
    by_cases h5 : flags.pki = [] <;> by_cases h6 : getenv EnvPKIDirectory = [] <;>
    by_cases h7 : getenv EnvKubernetesPort = [] <;> by_cases h8 : flags.kubeconfig = [] <;>
    simp_all [LoadConfig]

/-- C8: `LoadConfig` resolves the node annotation key, the PKI directory and the
node name by the precedence flag, then environment variable, then default (the
node name has no default); it panics if and only if both `-node` and
`$KUBERNETES_NODE` are empty, and whenever it returns the three fields are
non-empty. -/
theorem C8_LoadConfig_precedence (flags : Flags) (getenv : Getenv) :
    ((∃ msg, LoadConfig flags getenv = Except.error msg) ↔
        (flags.node = [] ∧ getenv EnvNodeName = [])) ∧
    ((∃ config, LoadConfig flags getenv = Except.ok config) ↔
        ¬ (flags.node = [] ∧ getenv EnvNodeName = [])) ∧
    (∀ config, LoadConfig flags getenv = Except.ok config →
      config.NodeAnnotationKey =
        firstNonEmpty [ flags.annotation, getenv EnvNodeAnnotationKey, DefaultNodeAnnotationKey] ∧
      config.PKIDirectory =
        firstNonEmpty [flags.pki, getenv EnvPKIDirectory, DefaultPKIDirectory] ∧
      config.KubeNodeName = firstNonEmpty [flags.node, getenv EnvNodeName] ∧
      config.NodeAnnotationKey ≠ [] ∧ config.PKIDirectory ≠ [] ∧ config.KubeNodeName ≠ []) := by
  refine ⟨LoadConfig_error_iff flags getenv, ?_, ?_⟩
  · constructor
    · rintro ⟨config, hc⟩ hboth
      obtain ⟨msg, hm⟩ := (LoadConfig_error_iff flags getenv).mpr hboth
      rw [hc] at hm
      exact Except.noConfusion hm
    · intro h
      exact ⟨_, LoadConfig_ok flags getenv h⟩
  · intro config hc
    have hne : ¬ (flags.node = [] ∧ getenv EnvNodeName = []) := by
      intro hboth
      obtain ⟨msg, hm⟩ := (LoadConfig_error_iff flags getenv).mpr hboth
      rw [hc] at hm
      exact Except.noConfusion hm
    rw [LoadConfig_ok flags getenv hne] at hc
    have hc2 := (Except.ok.inj hc).symm
    subst hc2
    have hd1 : DefaultNodeAnnotationKey ≠ [] := by decide
    have hd2 : DefaultPKIDirectory ≠ [] := by decide
    simp only [firstNonEmpty_triple, firstNonEmpty_pair]
    refine ⟨trivial, trivial, trivial, ?_, ?_, ?_⟩
    · by_cases h3 : flags.annotation = [] <;> by_cases h4 : getenv EnvNodeAnnotationKey = [] <;>
        simp [h3, h4, hd1]
    · by_cases h5 : flags.pki = [] <;> by_cases h6 : getenv EnvPKIDirectory = [] <;>
        simp [h5, h6, hd2]
    · by_cases h1 : flags.node = [] <;> by_cases h2 : getenv EnvNodeName = [] <;>
        simp_all

/-- C8, at a concrete input: flag `-node=n1`, `$TRIREME_CERT=K`, nothing else set. -/
theorem C8_LoadConfig_precedence_witness :
    ∃ config,
      LoadConfig { node := [110, 49] } (envOf [(EnvNodeAnnotationKey, [75])]) = Except.ok config ∧
      config.NodeAnnotationKey = [75] ∧
      config.PKIDirectory = DefaultPKIDirectory ∧
      config.KubeNodeName = [110, 49] := by
  obtain ⟨config, hc⟩ :=
    (C8_LoadConfig_precedence { node := [110, 49] } (envOf [(EnvNodeAnnotationKey, [75])])).2.1.mpr
      (by decide)
  have h := (C8_LoadConfig_precedence { node := [110, 49] }
    (envOf [(EnvNodeAnnotationKey, [75])])).2.2 config hc
  refine ⟨config, hc, ?_, ?_, ?_⟩
  · rw [h.1]; decide
  · rw [h.2.1]; decide
  · rw [h.2.2.1]; decide

/-- C9, evaluated at the failing input: the doc comment of `LoadConfig` says that
flags are used when present, yet with `$KUBERNETES_PORT` set, `-node=n` and
`-kubeconfig=/k`, `LoadConfig` returns a configuration whose
`KubeConfigLocation` is empty, not the value of the flag; the same flags in an
environment without `$KUBERNETES_PORT` give `/k`, and the sibling flag `-node`
is honoured in both. -/
theorem C9_kubeconfig_flag_dropped_in_cluster :
    (∃ config,
      LoadConfig { node := [110], kubeconfig := [47, 107] }
        (envOf [(EnvKubernetesPort, [116, 99, 112])]) = Except.ok config ∧
      config.KubeEnv = true ∧
      config.KubeNodeName = [110] ∧
      config.KubeConfigLocation = [] ∧
      config.KubeConfigLocation ≠ [47, 107]) ∧
    (∃ config,
      LoadConfig { node := [110], kubeconfig := [47, 107] } (envOf []) = Except.ok config ∧
      config.KubeEnv = false ∧
      config.KubeNodeName = [110] ∧
      config.KubeConfigLocation = [47, 107]) := by
  refine ⟨⟨_, LoadConfig_ok _ _ (by decide), ?_, ?_, ?_, ?_⟩,
    ⟨_, LoadConfig_ok _ _ (by decide), ?_, ?_, ?_⟩⟩ <;> decide

end ConfigTheorems

/-! ## Bootstrap orchestration -/

section MainTheorems
open Config Main

/-- The two mode strings differ. -/
theorem AuthPSK_ne_AuthPKI : AuthPSK ≠ AuthPKI := by decide

/-- The sample configuration is what `LoadConfig` returns on the sample input. -/
theorem LoadConfig_sample : LoadConfig sampleFlags sampleEnv = Except.ok sampleConfig := by
  decide

/-- Every mode string is `"PSK"`, or `"PKI"`, or neither. -/
theorem authType_cases (authType : GoString) :
    authType = AuthPSK ∨ authType = AuthPKI ∨ (authType ≠ AuthPSK ∧ authType ≠ AuthPKI) := by
  by_cases h1 : authType = AuthPSK
  · exact Or.inl h1
  · by_cases h2 : authType = AuthPKI
    · exact Or.inr (Or.inl h2)
    · exact Or.inr (Or.inr ⟨h1, h2⟩)

/-- Lines 41-44 change nothing but the node name. -/
theorem truncateNodeName_eq (maxServerName : Nat) (l : Locals) :
    truncateNodeName maxServerName l =
      { l with config := { l.config with KubeNodeName :=
          (if l.config.KubeNodeName.length > maxServerName then
            (l.config.KubeNodeName.take maxServerName)
          else l.config.KubeNodeName) } } := by
  unfold truncateNodeName
  by_cases h : l.config.KubeNodeName.length > maxServerName <;> simp [h]

/-- The name in force after lines 41-44, written out. -/
theorem nameInForce_eq (maxServerName : Nat) (config : TriKubeConfig) :
    nameInForce maxServerName config =
      if config.KubeNodeName.length > maxServerName then config.KubeNodeName.take maxServerName
      else config.KubeNodeName := by
  unfold nameInForce
  rw [truncateNodeName_eq]

/-- The function `main` is its body run on the loaded configuration. -/
theorem main_eq (maxServerName : Nat) (authType : GoString) (flags : Flags) (getenv : Getenv)
    (w : World) (config : TriKubeConfig) (hc : LoadConfig flags getenv = Except.ok config) :
    main maxServerName authType flags getenv w =
      mainWithConfig maxServerName authType w config := by
  simp [main, hc]

set_option maxHeartbeats 1600000 in
/-- C1: the node name handed to the enforcement constructors, and in force at the
publish of the local certificate and at every other action that follows the
construction of the policy engine, is the first `maxServerName` bytes of the
loaded name when that is longer than `maxServerName` (so it has length exactly
`maxServerName` and is a prefix of the loaded name) and the loaded name itself
otherwise; only the construction of the policy engine comes before the cut. -/
theorem C1_node_name_truncation (maxServerName : Nat) (authType : GoString) (flags : Flags)
    (getenv : Getenv) (w : World) (config : TriKubeConfig)
    (hc : LoadConfig flags getenv = Except.ok config) :
    (config.KubeNodeName.length > maxServerName →
      nameInForce maxServerName config = config.KubeNodeName.take maxServerName ∧
      (nameInForce maxServerName config).length = maxServerName ∧
      nameInForce maxServerName config <+: config.KubeNodeName) ∧
    (config.KubeNodeName.length ≤ maxServerName →
      nameInForce maxServerName config = config.KubeNodeName) ∧
    (∀ name psk, Action.NewPSKTriremeWithDockerMonitor name psk ∈
        (main maxServerName authType flags getenv w).acts →
      name = nameInForce maxServerName config) ∧
    (∀ name, Action.NewPKITriremeWithDockerMonitor name ∈
        (main maxServerName authType flags getenv w).acts →
      name = nameInForce maxServerName config) ∧
    (∀ e ∈ (main maxServerName authType flags getenv w).trace,
      e.act.isPolicyEngineConstruction = false →
      e.nodeName = nameInForce maxServerName config) ∧
    (∀ e ∈ (main maxServerName authType flags getenv w).trace,
      e.act.isPolicyEngineConstruction = true → e.nodeName = config.KubeNodeName) := by
  refine ⟨?_, ?_, ?_⟩
  · intro h
    rw [nameInForce_eq, if_pos h]
    exact ⟨rfl, by simp [List.length_take]; omega, List.take_prefix _ _⟩
  · intro h
    rw [nameInForce_eq, if_neg (by omega)]
  · rw [nameInForce_eq, main_eq _ _ _ _ _ _ hc]
    generalize hnm : (if config.KubeNodeName.length > maxServerName then
      config.KubeNodeName.take maxServerName else config.KubeNodeName) = nm
    obtain ⟨a, b, c, d, e⟩ := w
    rcases authType_cases authType with rfl | rfl | ⟨h1, h2⟩ <;>
      cases a <;> cases b <;> cases d <;> cases e <;>
      simp [mainWithConfig, truncateNodeName_eq, pskBlock, pkiBlock, wireAndStart,
        awaitAndStop, emit, halt, Run.acts, Action.isPolicyEngineConstruction, hnm,
        AuthPSK_ne_AuthPKI, AuthPSK_ne_AuthPKI.symm, *]

/-- C4: when the construction of the policy engine fails, or in PKI mode the load
of the key material fails, `main` returns right after the failed call, and the
actions it performed contain no enforcement constructor, no action of the
Trust Synchronizer, no registration, no exclusion watcher, no background task
and no `Start` or `Run` of a component. -/
theorem C4_construction_errors_abort (maxServerName : Nat) (authType : GoString)
    (flags : Flags) (getenv : Getenv) (w : World) (config : TriKubeConfig)
    (hc : LoadConfig flags getenv = Except.ok config)
    (herr : w.newKubernetesPolicyErr = true ∨ (authType = AuthPKI ∧ w.loadPKIErr = true)) :
    (main maxServerName authType flags getenv w).outcome = Outcome.returned ∧
    (w.newKubernetesPolicyErr = true →
      (main maxServerName authType flags getenv w).acts =
        [Action.NewKubernetesPolicy config.KubeConfigLocation config.KubeNodeName,
         Action.PrintfPolicyError]) ∧
    (w.newKubernetesPolicyErr = false →
      (main maxServerName authType flags getenv w).acts =
        [Action.NewKubernetesPolicy config.KubeConfigLocation config.KubeNodeName,
         Action.LoadPKI config.PKIDirectory, Action.PrintfPKIError]) ∧
    (∀ a ∈ (main maxServerName authType flags getenv w).acts,
      a.isEnforcementConstructor = false ∧ a.isTrustSynchronizer = false ∧
      a.isRegistration = false ∧ a.isNewWatcher = false ∧ a.isGoroutineLaunch = false ∧
      a.isStartOrRun = false) := by
  rw [main_eq _ _ _ _ _ _ hc]
  obtain ⟨a, b, c, d, e⟩ := w
  rcases herr with h | ⟨h, h'⟩
  · simp only at h
    subst h
    simp [mainWithConfig, emit, halt, Run.acts, Action.isEnforcementConstructor,
      Action.isTrustSynchronizer, Action.isRegistration, Action.isNewWatcher,
      Action.isGoroutineLaunch, Action.isStartOrRun, Action.isNewCertsWatcher, Action.isPublish,
      Action.isSync, Action.isCertWatchLaunch, Action.isExclusionWatchLaunch]
  · simp only at h'
    subst h h'
    cases a <;>
    simp [mainWithConfig, truncateNodeName_eq, pkiBlock, emit, halt, Run.acts,
      AuthPSK_ne_AuthPKI, AuthPSK_ne_AuthPKI.symm, Action.isEnforcementConstructor,
      Action.isTrustSynchronizer, Action.isRegistration, Action.isNewWatcher,
      Action.isGoroutineLaunch, Action.isStartOrRun, Action.isNewCertsWatcher, Action.isPublish,
      Action.isSync, Action.isCertWatchLaunch, Action.isExclusionWatchLaunch]

/-- C4, at a concrete input: PKI mode, the policy engine cannot be constructed. -/
theorem C4_construction_errors_abort_witness :
    (main 3 AuthPKI sampleFlags sampleEnv policyEngineFails).outcome = Outcome.returned ∧
    (main 3 AuthPKI sampleFlags sampleEnv policyEngineFails).acts =
      [Action.NewKubernetesPolicy sampleConfig.KubeConfigLocation sampleConfig.KubeNodeName,
       Action.PrintfPolicyError] :=
  have h := C4_construction_errors_abort 3 AuthPKI sampleFlags sampleEnv policyEngineFails
    sampleConfig LoadConfig_sample (Or.inl rfl)
  ⟨h.1, h.2.1 rfl⟩

/-- C1, at a concrete input: the name `ABCD` with a maximum of three bytes, PKI mode. -/
theorem C1_node_name_truncation_witness :
    nameInForce 3 sampleConfig = [65, 66, 67] ∧
    (∀ name, Action.NewPKITriremeWithDockerMonitor name ∈
        (main 3 AuthPKI sampleFlags sampleEnv calmWorld).acts → name = [65, 66, 67]) ∧
    Action.NewPKITriremeWithDockerMonitor [65, 66, 67] ∈
      (main 3 AuthPKI sampleFlags sampleEnv calmWorld).acts := by
  have h := C1_node_name_truncation 3 AuthPKI sampleFlags sampleEnv calmWorld sampleConfig
    LoadConfig_sample
  have hn : nameInForce 3 sampleConfig = [65, 66, 67] := (h.1 (by decide)).1
  refine ⟨hn, ?_, by decide⟩
  intro name hmem
  rw [← hn]
  exact h.2.2.2.1 name hmem

/-- C2 as stated fails in PKI mode: when the construction of the exclusion watcher
fails, `main` exits through `log.Fatalf`, but the certificate watch loop has
already been launched as a background task. -/
theorem C2_cert_watch_launched_before_fatal_exit :
    Action.NewWatcher (some Bundle.PKI) ∈
      (main 3 AuthPKI sampleFlags sampleEnv exclusionLoadFails).acts ∧
    exclusionLoadFails.newWatcherErr = true ∧
    (main 3 AuthPKI sampleFlags sampleEnv exclusionLoadFails).outcome = Outcome.exited 1 ∧
    Action.GoStartWatchingCerts ∈
      (main 3 AuthPKI sampleFlags sampleEnv exclusionLoadFails).acts ∧
    ((main 3 AuthPKI sampleFlags sampleEnv exclusionLoadFails).acts.any
      Action.isGoroutineLaunch) = true := by
  decide

/-- C2, amended: in every run in which `exclusion.NewWatcher` is called and
returns an error, `main` exits through `log.Fatalf` as its last action, and the
actions performed contain no launch of `exclusionWatcher.Start` and no
`trireme.Start`, `monitor.Start` or `kubernetesPolicy.Run`; the certificate
watch loop has been launched before the exit exactly when the mode is PKI, so
in every other mode no background task has been started. -/
theorem C2_fatal_exclusion_load (maxServerName : Nat) (authType : GoString)
    (flags : Flags) (getenv : Getenv) (w : World) (config : TriKubeConfig)
    (hc : LoadConfig flags getenv = Except.ok config)
    (hcall : ∃ excluder,
      Action.NewWatcher excluder ∈ (main maxServerName authType flags getenv w).acts)
    (herr : w.newWatcherErr = true) :
    (main maxServerName authType flags getenv w).outcome = Outcome.exited 1 ∧
    (main maxServerName authType flags getenv w).acts.getLast? = some Action.LogFatalf ∧
    (∀ a ∈ (main maxServerName authType flags getenv w).acts,
      a.isExclusionWatchLaunch = false ∧ a.isStartOrRun = false) ∧
    (Action.GoStartWatchingCerts ∈ (main maxServerName authType flags getenv w).acts ↔
      authType = AuthPKI) ∧
    (authType ≠ AuthPKI →
      ∀ a ∈ (main maxServerName authType flags getenv w).acts, a.isGoroutineLaunch = false) := by
  rw [main_eq _ _ _ _ _ _ hc] at hcall ⊢
  obtain ⟨a, b, c, d, e⟩ := w
  simp only at herr
  subst herr
  revert hcall
  rcases authType_cases authType with rfl | rfl | ⟨h1, h2⟩ <;>
    cases a <;> cases b <;>
    simp [mainWithConfig, truncateNodeName_eq, pskBlock, pkiBlock, wireAndStart, emit, halt,
      Run.acts, AuthPSK_ne_AuthPKI, AuthPSK_ne_AuthPKI.symm, Action.isGoroutineLaunch,
      Action.isStartOrRun, Action.isCertWatchLaunch, Action.isExclusionWatchLaunch, *]

/-- C2 amended, at a concrete input: PSK mode, the exclusion watcher cannot be constructed. -/
theorem C2_fatal_exclusion_load_witness :
    (main 3 AuthPSK sampleFlags sampleEnv exclusionLoadFails).outcome = Outcome.exited 1 ∧
    ∀ a ∈ (main 3 AuthPSK sampleFlags sampleEnv exclusionLoadFails).acts,
      a.isGoroutineLaunch = false :=
  have h := C2_fatal_exclusion_load 3 AuthPSK sampleFlags sampleEnv exclusionLoadFails
    sampleConfig LoadConfig_sample ⟨some Bundle.PSK, by decide⟩ rfl
  ⟨h.1, h.2.2.2.2 (by decide)⟩

/-- C3 as stated fails: in PKI mode, with the write of the local certificate
rejected, `main` does not abort: it goes on to the peer sync, launches the
certificate watch loop, starts the three components and returns only after the
interrupt. -/
theorem C3_startup_continues_after_rejected_publish :
    Action.AddCertToNodeAnnotation true ∈
      (main 3 AuthPKI sampleFlags sampleEnv publishRejected).acts ∧
    Action.SyncNodeCerts ∈ (main 3 AuthPKI sampleFlags sampleEnv publishRejected).acts ∧
    Action.GoStartWatchingCerts ∈ (main 3 AuthPKI sampleFlags sampleEnv publishRejected).acts ∧
    (main 3 AuthPKI sampleFlags sampleEnv publishRejected).startOrder =
      [Component.enforcementEngine, Component.monitor, Component.policyResolver] ∧
    (main 3 AuthPKI sampleFlags sampleEnv publishRejected).outcome = Outcome.returned := by
  decide

/-- C3, amended: `main` does not look at the outcome of
`certs.AddCertToNodeAnnotation`. A run in which the publish is rejected performs
the actions of the run in which it is accepted, in the same order and with the
same outcome; in PKI mode with the policy engine and the key material at hand,
the publish is directly followed by the peer sync, the launch of the
certificate watch loop and the registrations. -/
theorem C3_publish_outcome_not_inspected (maxServerName : Nat) (authType : GoString)
    (flags : Flags) (getenv : Getenv) (w : World) (config : TriKubeConfig)
    (hc : LoadConfig flags getenv = Except.ok config) :
    ((main maxServerName authType flags getenv { w with addCertRejected := true }).acts.map
        Action.forgetPublishResult =
      (main maxServerName authType flags getenv { w with addCertRejected := false }).acts.map
        Action.forgetPublishResult) ∧
    ((main maxServerName authType flags getenv { w with addCertRejected := true }).outcome =
      (main maxServerName authType flags getenv { w with addCertRejected := false }).outcome) ∧
    (authType = AuthPKI → w.newKubernetesPolicyErr = false → w.loadPKIErr = false →
      ∃ rest, (main maxServerName authType flags getenv w).acts =
        [Action.NewKubernetesPolicy config.KubeConfigLocation config.KubeNodeName,
         Action.LoadPKI config.PKIDirectory,
         Action.NewPKITriremeWithDockerMonitor (nameInForce maxServerName config),
         Action.NewCertsWatcher (some Bundle.PKI) config.NodeAnnotationKey,
         Action.AddCertToNodeAnnotation w.addCertRejected,
         Action.SyncNodeCerts,
         Action.GoStartWatchingCerts,
         Action.SetPolicyUpdater (some Bundle.PKI),
         Action.SetExcluder (some Bundle.PKI),
         Action.NewWatcher (some Bundle.PKI)] ++ rest) := by
  simp only [main_eq _ _ _ _ _ _ hc, nameInForce_eq]
  obtain ⟨a, b, c, d, e⟩ := w
  refine ⟨?_, ?_, ?_⟩
  · rcases authType_cases authType with rfl | rfl | ⟨h1, h2⟩ <;>
      cases a <;> cases b <;> cases d <;> cases e <;>
      simp [mainWithConfig, truncateNodeName_eq, pskBlock, pkiBlock, wireAndStart,
        awaitAndStop, emit, halt, Run.acts, AuthPSK_ne_AuthPKI, AuthPSK_ne_AuthPKI.symm,
        Action.forgetPublishResult, *]
  · rcases authType_cases authType with rfl | rfl | ⟨h1, h2⟩ <;>
      cases a <;> cases b <;> cases d <;> cases e <;>
      simp [mainWithConfig, truncateNodeName_eq, pskBlock, pkiBlock, wireAndStart,
        awaitAndStop, emit, halt, Run.acts, AuthPSK_ne_AuthPKI, AuthPSK_ne_AuthPKI.symm, *]
  · rintro rfl h1 h2
    simp only at h1 h2
    subst h1 h2
    cases d <;> cases e <;>
      simp [mainWithConfig, truncateNodeName_eq, pskBlock, pkiBlock, wireAndStart,
        awaitAndStop, emit, halt, Run.acts, AuthPSK_ne_AuthPKI, AuthPSK_ne_AuthPKI.symm]

/-- C3 amended, at a concrete input: PKI mode, the publish rejected. -/
theorem C3_publish_outcome_not_inspected_witness :
    (main 3 AuthPKI sampleFlags sampleEnv { publishRejected with addCertRejected := true }).outcome =
      (main 3 AuthPKI sampleFlags sampleEnv
        { publishRejected with addCertRejected := false }).outcome :=
  (C3_publish_outcome_not_inspected 3 AuthPKI sampleFlags sampleEnv publishRejected sampleConfig
    LoadConfig_sample).2.1

/-- C5: in every run that reaches the wait for the interrupt, the components
started are the enforcement engine, the monitor and the policy resolver, in
that order; once the interrupt is received they are stopped in exactly the
reverse order, each started component exactly once, and `main` returns; as
long as no interrupt is delivered nothing is stopped. -/
theorem C5_shutdown_reverse_order (maxServerName : Nat) (authType : GoString)
    (flags : Flags) (getenv : Getenv) (w : World) (config : TriKubeConfig)
    (hc : LoadConfig flags getenv = Except.ok config)
    (hreach : (main maxServerName authType flags getenv w).reachesInterruptWait) :
    (main maxServerName authType flags getenv w).startOrder =
      [Component.enforcementEngine, Component.monitor, Component.policyResolver] ∧
    (w.interrupt = true →
      (main maxServerName authType flags getenv w).stopOrder =
        [Component.policyResolver, Component.monitor, Component.enforcementEngine] ∧
      (main maxServerName authType flags getenv w).stopOrder =
        (main maxServerName authType flags getenv w).startOrder.reverse ∧
      (∀ c ∈ (main maxServerName authType flags getenv w).startOrder,
        ((main maxServerName authType flags getenv w).acts.filterMap Action.stops).count c = 1) ∧
      (main maxServerName authType flags getenv w).outcome = Outcome.returned) ∧
    (w.interrupt = false →
      (main maxServerName authType flags getenv w).acts.filterMap Action.stops = [] ∧
      (main maxServerName authType flags getenv w).outcome = Outcome.blocked) := by
  unfold Run.reachesInterruptWait at hreach
  rw [main_eq _ _ _ _ _ _ hc] at hreach ⊢
  obtain ⟨a, b, c, d, e⟩ := w
  revert hreach
  rcases authType_cases authType with rfl | rfl | ⟨h1, h2⟩ <;>
    cases a <;> cases b <;> cases d <;> cases e <;>
    simp [mainWithConfig, truncateNodeName_eq, pskBlock, pkiBlock, wireAndStart,
      awaitAndStop, emit, halt, Run.acts, Run.startOrder, Run.stopOrder, Run.afterInterrupt,
      AuthPSK_ne_AuthPKI, AuthPSK_ne_AuthPKI.symm, Action.starts, Action.stops,
      List.filterMap_cons, List.dropWhile_cons, *]

/-- C5, at a concrete input: PSK mode, every call succeeds, the interrupt arrives. -/
theorem C5_shutdown_reverse_order_witness :
    (main 3 AuthPSK sampleFlags sampleEnv calmWorld).stopOrder =
      [Component.policyResolver, Component.monitor, Component.enforcementEngine] ∧
    (main 3 AuthPSK sampleFlags sampleEnv calmWorld).stopOrder =
      (main 3 AuthPSK sampleFlags sampleEnv calmWorld).startOrder.reverse :=
  have h := C5_shutdown_reverse_order 3 AuthPSK sampleFlags sampleEnv calmWorld sampleConfig
    LoadConfig_sample (by decide)
  ⟨(h.2.1 rfl).1, (h.2.1 rfl).2.1⟩

/-- C6: in PKI mode, when all constructions succeed, the publish of the local
certificate, the one-time peer sync, the launch of the certificate watch loop
and the start of the enforcement engine each occur exactly once, in this
order. -/
theorem C6_pki_bootstrap_order (maxServerName : Nat) (authType : GoString)
    (flags : Flags) (getenv : Getenv) (w : World) (config : TriKubeConfig)
    (hc : LoadConfig flags getenv = Except.ok config)
    (hmode : authType = AuthPKI) (hall : allConstructionsSucceed authType w) :
    strictlyBefore Action.isPublish Action.isSync
      (main maxServerName authType flags getenv w).acts ∧
    strictlyBefore Action.isSync Action.isCertWatchLaunch
      (main maxServerName authType flags getenv w).acts ∧
    strictlyBefore Action.isPublish Action.isTriremeStart
      (main maxServerName authType flags getenv w).acts ∧
    strictlyBefore Action.isSync Action.isTriremeStart
      (main maxServerName authType flags getenv w).acts ∧
    strictlyBefore Action.isCertWatchLaunch Action.isTriremeStart
      (main maxServerName authType flags getenv w).acts ∧
    Action.TriremeStart (some Bundle.PKI) ∈ (main maxServerName authType flags getenv w).acts := by
  rw [main_eq _ _ _ _ _ _ hc]
  obtain ⟨a, b, c, d, e⟩ := w
  obtain ⟨ha, hb, hd⟩ := hall
  subst hmode
  have hb' := hb rfl
  simp only at ha hb' hd
  subst ha hb' hd
  cases e <;>
    simp [mainWithConfig, truncateNodeName_eq, pskBlock, pkiBlock, wireAndStart,
      awaitAndStop, emit, halt, Run.acts, strictlyBefore, occursOnce,
      AuthPSK_ne_AuthPKI, AuthPSK_ne_AuthPKI.symm, Action.isPublish, Action.isSync,
      Action.isCertWatchLaunch, Action.isTriremeStart, List.countP_cons, List.findIdx_cons]

/-- C6, at a concrete input: PKI mode, every call succeeds. -/
theorem C6_pki_bootstrap_order_witness :
    strictlyBefore Action.isPublish Action.isSync
      (main 3 AuthPKI sampleFlags sampleEnv calmWorld).acts ∧
    strictlyBefore Action.isCertWatchLaunch Action.isTriremeStart
      (main 3 AuthPKI sampleFlags sampleEnv calmWorld).acts :=
  have h := C6_pki_bootstrap_order 3 AuthPKI sampleFlags sampleEnv calmWorld sampleConfig
    LoadConfig_sample rfl (by decide)
  ⟨h.1, h.2.2.2.2.1⟩

/-- C7: in every run in which all constructions succeed, each action of the
Trust Synchronizer (construction of the certificate watcher, publish, peer
sync, launch of the watch loop) occurs if and only if the mode is PKI, and so
does the handing over of a public-key adder; the exclusion watcher is
constructed exactly once and its watch loop launched exactly once, in this
order, whatever the mode, for PSK and PKI in particular. -/
theorem C7_mode_selects_synchronizers (maxServerName : Nat) (authType : GoString)
    (flags : Flags) (getenv : Getenv) (w : World) (config : TriKubeConfig)
    (hc : LoadConfig flags getenv = Except.ok config)
    (hall : allConstructionsSucceed authType w) :
    (((main maxServerName authType flags getenv w).acts.any Action.isNewCertsWatcher = true) ↔
      authType = AuthPKI) ∧
    (((main maxServerName authType flags getenv w).acts.any Action.isPublish = true) ↔
      authType = AuthPKI) ∧
    (((main maxServerName authType flags getenv w).acts.any Action.isSync = true) ↔
      authType = AuthPKI) ∧
    (((main maxServerName authType flags getenv w).acts.any Action.isCertWatchLaunch = true) ↔
      authType = AuthPKI) ∧
    ((∃ adder key, Action.NewCertsWatcher (some adder) key ∈
        (main maxServerName authType flags getenv w).acts) ↔ authType = AuthPKI) ∧
    (authType = AuthPKI →
      occursOnce Action.isNewCertsWatcher (main maxServerName authType flags getenv w).acts ∧
      occursOnce Action.isPublish (main maxServerName authType flags getenv w).acts ∧
      occursOnce Action.isSync (main maxServerName authType flags getenv w).acts ∧
      occursOnce Action.isCertWatchLaunch (main maxServerName authType flags getenv w).acts) ∧
    strictlyBefore Action.isNewWatcher Action.isExclusionWatchLaunch
      (main maxServerName authType flags getenv w).acts := by
  rw [main_eq _ _ _ _ _ _ hc]
  obtain ⟨a, b, c, d, e⟩ := w
  obtain ⟨ha, hb, hd⟩ := hall
  simp only at ha hb hd
  subst ha hd
  rcases authType_cases authType with rfl | rfl | ⟨h1, h2⟩
  · cases e <;>
      simp [mainWithConfig, truncateNodeName_eq, pskBlock, pkiBlock, wireAndStart,
        awaitAndStop, emit, halt, Run.acts, strictlyBefore, occursOnce,
        AuthPSK_ne_AuthPKI, AuthPSK_ne_AuthPKI.symm, Action.isPublish, Action.isSync,
        Action.isCertWatchLaunch, Action.isNewCertsWatcher, Action.isNewWatcher,
        Action.isExclusionWatchLaunch, List.countP_cons, List.findIdx_cons]
  · have hb' := hb rfl
    subst hb'
    cases e <;>
      simp [mainWithConfig, truncateNodeName_eq, pskBlock, pkiBlock, wireAndStart,
        awaitAndStop, emit, halt, Run.acts, strictlyBefore, occursOnce,
        AuthPSK_ne_AuthPKI, AuthPSK_ne_AuthPKI.symm, Action.isPublish, Action.isSync,
        Action.isCertWatchLaunch, Action.isNewCertsWatcher, Action.isNewWatcher,
        Action.isExclusionWatchLaunch, List.countP_cons, List.findIdx_cons]
  · cases e <;>
      simp [mainWithConfig, truncateNodeName_eq, pskBlock, pkiBlock, wireAndStart,
        awaitAndStop, emit, halt, Run.acts, strictlyBefore, occursOnce,
        AuthPSK_ne_AuthPKI, AuthPSK_ne_AuthPKI.symm, Action.isPublish, Action.isSync,
        Action.isCertWatchLaunch, Action.isNewCertsWatcher, Action.isNewWatcher,
        Action.isExclusionWatchLaunch, List.countP_cons, List.findIdx_cons, h1, h2]

/-- C7, at a concrete input: PSK mode, every call succeeds. -/
theorem C7_mode_selects_synchronizers_witness :
    (main 3 AuthPSK sampleFlags sampleEnv calmWorld).acts.any Action.isTrustSynchronizer = false ∧
    strictlyBefore Action.isNewWatcher Action.isExclusionWatchLaunch
      (main 3 AuthPSK sampleFlags sampleEnv calmWorld).acts :=
  have h := C7_mode_selects_synchronizers 3 AuthPSK sampleFlags sampleEnv calmWorld sampleConfig
    LoadConfig_sample (by decide)
  ⟨by decide, h.2.2.2.2.2.2⟩

/-- C10 as stated fails: with a mode that is neither PSK nor PKI (here the empty
string) and the policy engine constructed, a failing `exclusion.NewWatcher`
makes `main` exit through `log.Fatalf`; `trireme.Start` is never reached. -/
theorem C10_unknown_mode_fatal_before_start :
    exclusionLoadFails.newKubernetesPolicyErr = false ∧
    Action.NewWatcher none ∈ (main 3 [] sampleFlags sampleEnv exclusionLoadFails).acts ∧
    (main 3 [] sampleFlags sampleEnv exclusionLoadFails).acts.any Action.isTriremeStart = false ∧
    (main 3 [] sampleFlags sampleEnv exclusionLoadFails).outcome = Outcome.exited 1 := by
  decide

/-- C10, amended: when the policy engine is constructed (and, in PKI mode, the key
material loaded), an enforcement constructor is called, exactly once and before
the registrations, if and only if the mode is PSK or PKI, and the values
registered (`SetPolicyUpdater`, `SetExcluder`, `exclusion.NewWatcher`) are then
the ones it returned; for any other mode no constructor is called and `main`
reaches the registrations with the variables still nil. When
`exclusion.NewWatcher` also returns no error, `main` reaches `trireme.Start`:
with the constructed engine, followed by `monitor.Start`, for PSK and PKI, and
with a nil receiver for any other mode. -/
theorem C10_collaborators_constructed_iff_known_mode (maxServerName : Nat)
    (authType : GoString) (flags : Flags) (getenv : Getenv) (w : World)
    (config : TriKubeConfig)
    (hc : LoadConfig flags getenv = Except.ok config)
    (hpolicy : w.newKubernetesPolicyErr = false)
    (hpki : authType = AuthPKI → w.loadPKIErr = false) :
    ((strictlyBefore Action.isEnforcementConstructor Action.isNewWatcher
        (main maxServerName authType flags getenv w).acts ∧
      (main maxServerName authType flags getenv w).acts.findIdx Action.isEnforcementConstructor <
        (main maxServerName authType flags getenv w).acts.findIdx Action.isRegistration) ↔
      (authType = AuthPSK ∨ authType = AuthPKI)) ∧
    ((∃ b, Action.SetPolicyUpdater (some b) ∈ (main maxServerName authType flags getenv w).acts ∧
        Action.SetExcluder (some b) ∈ (main maxServerName authType flags getenv w).acts ∧
        Action.NewWatcher (some b) ∈ (main maxServerName authType flags getenv w).acts) ↔
      (authType = AuthPSK ∨ authType = AuthPKI)) ∧
    (authType = AuthPSK →
      (∃ name psk, Action.NewPSKTriremeWithDockerMonitor name psk ∈
        (main maxServerName authType flags getenv w).acts) ∧
      ∀ name, Action.NewPKITriremeWithDockerMonitor name ∉
        (main maxServerName authType flags getenv w).acts) ∧
    (authType = AuthPKI →
      (∃ name, Action.NewPKITriremeWithDockerMonitor name ∈
        (main maxServerName authType flags getenv w).acts) ∧
      ∀ name psk, Action.NewPSKTriremeWithDockerMonitor name psk ∉
        (main maxServerName authType flags getenv w).acts) ∧
    (¬ (authType = AuthPSK ∨ authType = AuthPKI) →
      (main maxServerName authType flags getenv w).acts.any
        Action.isEnforcementConstructor = false ∧
      Action.SetPolicyUpdater none ∈ (main maxServerName authType flags getenv w).acts ∧
      Action.SetExcluder none ∈ (main maxServerName authType flags getenv w).acts ∧
      Action.NewWatcher none ∈ (main maxServerName authType flags getenv w).acts) ∧
    (w.newWatcherErr = false →
      ((∃ b, Action.TriremeStart (some b) ∈ (main maxServerName authType flags getenv w).acts ∧
          Action.MonitorStart (some b) ∈ (main maxServerName authType flags getenv w).acts) ↔
        (authType = AuthPSK ∨ authType = AuthPKI)) ∧
      (¬ (authType = AuthPSK ∨ authType = AuthPKI) →
        (main maxServerName authType flags getenv w).acts.getLast? =
          some (Action.TriremeStart none) ∧
        (main maxServerName authType flags getenv w).outcome = Outcome.panicked)) := by
  rw [main_eq _ _ _ _ _ _ hc]
  obtain ⟨a, b, c, d, e⟩ := w
  simp only at hpolicy hpki
  subst hpolicy
  rcases authType_cases authType with rfl | rfl | ⟨h1, h2⟩
  · cases d <;> cases e <;>
      simp [mainWithConfig, truncateNodeName_eq, pskBlock, pkiBlock, wireAndStart,
        awaitAndStop, emit, halt, Run.acts, strictlyBefore, occursOnce,
        AuthPSK_ne_AuthPKI, AuthPSK_ne_AuthPKI.symm, Action.isEnforcementConstructor,
        Action.isNewWatcher, Action.isRegistration, List.countP_cons, List.findIdx_cons]
  · have hb' := hpki rfl
    subst hb'
    cases d <;> cases e <;>
      simp [mainWithConfig, truncateNodeName_eq, pskBlock, pkiBlock, wireAndStart,
        awaitAndStop, emit, halt, Run.acts, strictlyBefore, occursOnce,
        AuthPSK_ne_AuthPKI, AuthPSK_ne_AuthPKI.symm, Action.isEnforcementConstructor,
        Action.isNewWatcher, Action.isRegistration, List.countP_cons, List.findIdx_cons]
  · cases d <;> cases e <;>
      simp [mainWithConfig, truncateNodeName_eq, pskBlock, pkiBlock, wireAndStart,
        awaitAndStop, emit, halt, Run.acts, strictlyBefore, occursOnce,
        AuthPSK_ne_AuthPKI, AuthPSK_ne_AuthPKI.symm, Action.isEnforcementConstructor,
        Action.isNewWatcher, Action.isRegistration, List.countP_cons, List.findIdx_cons, h1, h2]

/-- C10 amended, at a concrete input: the empty mode string, every call succeeds. -/
theorem C10_collaborators_constructed_iff_known_mode_witness :
    Action.SetPolicyUpdater none ∈ (main 3 [] sampleFlags sampleEnv calmWorld).acts ∧
    (main 3 [] sampleFlags sampleEnv calmWorld).acts.getLast? =
      some (Action.TriremeStart none) ∧
    (main 3 [] sampleFlags sampleEnv calmWorld).outcome = Outcome.panicked :=
  have h := C10_collaborators_constructed_iff_known_mode 3 [] sampleFlags sampleEnv calmWorld
    sampleConfig LoadConfig_sample rfl (by decide)
  ⟨(h.2.2.2.2.1 (by decide)).2.1, (h.2.2.2.2.2 rfl).2 (by decide)⟩

end MainTheorems
